import Mathlib

/-!
# Verification of the `db-reader` connection/query orchestration layer

Shallow embedding of `src/index.js` (class `DatabaseReader`).  External
database drivers are opaque collaborators: their outcomes enter the model as
explicit parameters (`exec`, `handshake`, `closeResult`).  Times
(`Date.now()`) are explicit `ℤ` parameters, durations and retry delays are
`ℚ` (JS numbers used as exact arithmetic), and the `Math.random()` fraction
is passed as its list of base-36 digits.
-/

namespace DbReader

/-- Association-list lookup, modelling `Map.prototype.get`. -/
def alookup {α : Type} (k : String) : List (String × α) → Option α
  | [] => none
  | (k', v) :: rest => if k' = k then some v else alookup k rest

/-- Association-list update, modelling `Map.prototype.set`
(replace the binding if the key is present, otherwise append). -/
def aset {α : Type} (k : String) (v : α) : List (String × α) → List (String × α)
  | [] => [(k, v)]
  | (k', v') :: rest => if k' = k then (k, v) :: rest else (k', v') :: aset k v rest

/-- Association-list removal, modelling `Map.prototype.delete`. -/
def aerase {α : Type} (k : String) (l : List (String × α)) : List (String × α) :=
  l.filter (fun kv => kv.1 ≠ k)

theorem alookup_aset_self {α : Type} (k : String) (v : α) (l : List (String × α)) :
    alookup k (aset k v l) = some v := by
  induction l with
  | nil => simp [alookup, aset]
  | cons hd tl ih =>
    obtain ⟨k0, v0⟩ := hd
    by_cases h : k0 = k
    · simp [alookup, aset, h]
    · simp [alookup, aset, h, ih]

theorem alookup_aset_ne {α : Type} (k k' : String) (v : α) (l : List (String × α))
    (h : k' ≠ k) : alookup k' (aset k v l) = alookup k' l := by
  have hk : ¬k = k' := fun hh => h hh.symm
  induction l with
  | nil => simp [alookup, aset, hk]
  | cons hd tl ih =>
    obtain ⟨k0, v0⟩ := hd
    by_cases h0 : k0 = k
    · subst h0
      simp [alookup, aset, hk]
    · simp [alookup, aset, h0, ih]

/-- Decidable equality for `Except` values (needed to evaluate outcomes on
concrete inputs). -/
instance exceptDecEq {E A : Type} [DecidableEq E] [DecidableEq A] :
    DecidableEq (Except E A) := fun x y =>
  match x, y with
  | .ok a, .ok b =>
    if h : a = b then .isTrue (by rw [h]) else .isFalse (by simp [h])
  | .error e, .error f =>
    if h : e = f then .isTrue (by rw [h]) else .isFalse (by simp [h])
  | .ok _, .error _ => .isFalse (by simp)
  | .error _, .ok _ => .isFalse (by simp)

/-! ## Retry executor (`executeWithRetry`, src/index.js lines 352-371) -/

/-- The `this.retryOptions` record built in the constructor:
`{retries, factor, minTimeout, maxTimeout}`. -/
structure RetryOptions where
  retries : ℕ
  factor : ℚ
  minTimeout : ℚ
  maxTimeout : ℚ
deriving DecidableEq, Repr

/-- Observable outcome of `executeWithRetry`: the returned value or thrown
error, how many times `fn` was invoked, and the sequence of delays slept
(in order) between attempts. -/
structure RetryResult (E A : Type) where
  result : Except E A
  attempts : ℕ
  delays : List ℚ
deriving DecidableEq, Repr

/-- The `for (let i = 0; i <= options.retries; i++)` loop of
`executeWithRetry`.  `remaining` counts the retries still allowed
(`options.retries - i`), which makes the recursion structural; `i` is the
0-based attempt index; `delay` is the current backoff delay; `slept`
accumulates the delays slept so far.  On failure with retries remaining the
loop sleeps `delay` and then updates
`delay = Math.min(delay * options.factor, options.maxTimeout)`; once
attempts are exhausted it rethrows the most recent error unchanged. -/
def retryLoop {E A : Type} (fn : ℕ → Except E A) (factor maxTimeout : ℚ) :
    ℕ → ℕ → ℚ → List ℚ → RetryResult E A
  | remaining, i, delay, slept =>
    match fn i with
    | .ok a => ⟨.ok a, i + 1, slept⟩
    | .error e =>
      match remaining with
      | 0 => ⟨.error e, i + 1, slept⟩
      | r + 1 =>
        retryLoop fn factor maxTimeout r (i + 1) (min (delay * factor) maxTimeout)
          (slept ++ [delay])

/-- `executeWithRetry(fn, options)` (src/index.js lines 352-371). `fn` is
indexed by the attempt number so that distinct attempts may have distinct
outcomes. -/
def executeWithRetry {E A : Type} (fn : ℕ → Except E A) (opts : RetryOptions) :
    RetryResult E A :=
  retryLoop fn opts.factor opts.maxTimeout opts.retries 0 opts.minTimeout []

/-! ## Registry, cache and dispatcher state -/

/-- One cache entry: `{result, timestamp}` as stored by `query`. -/
structure CacheEntry where
  result : String
  timestamp : ℤ
deriving DecidableEq, Repr

/-- One connection record as stored by `connect`
(`{type, connection, config, createdAt, lastUsed, queryCount}`); the opaque
driver handle is not part of the observable state. -/
structure ConnRecord where
  type : String
  config : List (String × String)
  createdAt : ℤ
  lastUsed : ℤ
  queryCount : ℕ
deriving DecidableEq, Repr

/-- The mutable fields of a `DatabaseReader` instance.  `cacheEnabled`
models `this.queryCache !== null` (the cache Map is created exactly when
`options.enableCache` is truthy). -/
structure ReaderState where
  connections : List (String × ConnRecord)
  cacheEnabled : Bool
  queryCache : List (String × CacheEntry)
  cacheTimeout : ℤ
  maxConnections : ℕ
  retryOptions : RetryOptions
deriving DecidableEq, Repr

/-- `getCacheKey(connectionId, query, params)` hashes
`` `${connectionId}:${JSON.stringify(query)}:${JSON.stringify(params)}` ``
with SHA-256.  The collision-resistant digest is modelled by its preimage
string (an injective fingerprint of the same three inputs). -/
def getCacheKey (connectionId : String) (query : String) (params : List String) : String :=
  connectionId ++ ":\"" ++ query ++ "\":[" ++ String.intercalate "," params ++ "]"

/-- Observable steps of one `query` call, in execution order. -/
inductive QEvent where
  /-- `this.connections.get(connectionId)` and the found/not-found outcome. -/
  | registryLookup (id : String) (found : Bool)
  /-- the registry bookkeeping update `lastUsed = new Date(); queryCount++`. -/
  | registryTouch (id : String)
  /-- a consultation of `this.queryCache` and whether it produced a hit. -/
  | cacheLookup (key : String) (hit : Bool)
  /-- one invocation of the underlying adapter execute (`executeQuery`). -/
  | adapterCall (attempt : ℕ)
  /-- `this.queryCache.set(cacheKey, ...)`. -/
  | cacheStore (key : String)
deriving DecidableEq, Repr

/-- Full observable outcome of one `query` call. -/
structure QueryOutcome where
  result : Except String String
  state : ReaderState
  adapterCalls : ℕ
  trace : List QEvent
deriving DecidableEq, Repr

/-- The cache-miss tail of `query` (src/index.js lines 103-124): run the
retry-wrapped adapter call, then store the result in the cache when caching
applies (`this.queryCache && options.cache !== false`), rethrowing failures
unchanged. -/
def queryMiss (st : ReaderState) (key : String) (now : ℤ)
    (exec : ℕ → Except String String) (useCache : Bool) (evs : List QEvent) :
    QueryOutcome :=
  let rr := executeWithRetry exec st.retryOptions
  let evs' := evs ++ (List.range rr.attempts).map QEvent.adapterCall
  match rr.result with
  | .ok v =>
    if useCache then
      ⟨.ok v, { st with queryCache := aset key ⟨v, now⟩ st.queryCache }, rr.attempts,
        evs' ++ [.cacheStore key]⟩
    else ⟨.ok v, st, rr.attempts, evs'⟩
  | .error e => ⟨.error e, st, rr.attempts, evs'⟩

/-- `query(connectionId, query, params, options)` (src/index.js lines
83-125).  `optionsCache` models `options.cache !== false` (true when the
caller did not pass `cache:false`); `now` models `Date.now()` for this
call; `exec`, indexed by attempt, models the underlying adapter execute
(`executeQuery` on the driver handle). -/
def query (st : ReaderState) (connectionId : String) (q : String)
    (params : List String) (optionsCache : Bool) (now : ℤ)
    (exec : ℕ → Except String String) : QueryOutcome :=
  match alookup connectionId st.connections with
  | none =>
    ⟨.error ("No connection found with id: " ++ connectionId), st, 0,
      [.registryLookup connectionId false]⟩
  | some rec =>
    let rec' := { rec with lastUsed := now, queryCount := rec.queryCount + 1 }
    let st1 := { st with connections := aset connectionId rec' st.connections }
    let evs0 := [QEvent.registryLookup connectionId true, .registryTouch connectionId]
    let key := getCacheKey connectionId q params
    if st1.cacheEnabled && optionsCache then
      match alookup key st1.queryCache with
      | some entry =>
        if now - entry.timestamp < st1.cacheTimeout then
          ⟨.ok entry.result, st1, 0, evs0 ++ [.cacheLookup key true]⟩
        else queryMiss st1 key now exec true (evs0 ++ [.cacheLookup key false])
      | none => queryMiss st1 key now exec true (evs0 ++ [.cacheLookup key false])
    else queryMiss st1 key now exec false evs0

/-! ## `connect` (src/index.js lines 31-81) -/

/-- The four recognized backend kinds, in source order
(`['sqlite', 'mysql', 'postgres', 'mongodb']`). -/
def supportedTypes : List String := ["sqlite", "mysql", "postgres", "mongodb"]

/-- `connect(config)` (src/index.js lines 31-81).  `suppliedId` is
`config.id` when present; `genId` is the value `generateConnectionId(type)`
would produce (the id used when the caller supplies none); `handshake`
models the outcome of the backend-specific driver handshake; `now` models
`new Date()`.  The source checks the connection limit first, then the
type, then performs the handshake and stores the record. -/
def connect (st : ReaderState) (cfgType : String) (suppliedId : Option String)
    (genId : String) (config : List (String × String))
    (handshake : Except String Unit) (now : ℤ) :
    Except String (String × ReaderState) :=
  let id := suppliedId.getD genId
  if st.maxConnections ≤ st.connections.length then
    .error ("Maximum connections (" ++ toString st.maxConnections ++ ") reached")
  else if cfgType ∉ supportedTypes then
    .error ("Unsupported database type: " ++ cfgType)
  else
    match handshake with
    | .error e => .error e
    | .ok _ =>
      .ok (id, { st with
        connections :=
          aset id ⟨cfgType, config, now, now, 0⟩ st.connections })

/-! ## `disconnect` (src/index.js lines 144-175) -/

/-- `disconnect(connectionId)` (src/index.js lines 144-175).  `closeResult`
models the outcome of the driver's `close()`/`end()` call (vacuously `ok`
when the handle has no such method).  Unknown ids return silently; a close
failure is logged and rethrown, and `this.connections.delete` runs only
after the close succeeded. -/
def disconnect (st : ReaderState) (connectionId : String)
    (closeResult : Except String Unit) : Except String Unit × ReaderState :=
  match alookup connectionId st.connections with
  | none => (.ok (), st)
  | some _ =>
    match closeResult with
    | .error e => (.error e, st)
    | .ok _ => (.ok (), { st with connections := aerase connectionId st.connections })

/-! ## Connection introspection (src/index.js lines 374-390) -/

/-- The summary returned by `getConnectionInfo`. -/
structure ConnectionInfo where
  id : String
  type : String
  createdAt : ℤ
  lastUsed : ℤ
  queryCount : ℕ
  config : List (String × String)
deriving DecidableEq, Repr

/-- `{ ...info.config, password: '***' }`: the stored config with the
`password` field rendered as the fixed marker (added when absent,
overwritten in place when present — object-spread semantics). -/
def redactConfig (config : List (String × String)) : List (String × String) :=
  aset "password" "***" config

/-- `getConnectionInfo(connectionId)` (src/index.js lines 374-386). -/
def getConnectionInfo (st : ReaderState) (connectionId : String) :
    Option ConnectionInfo :=
  (alookup connectionId st.connections).map fun info =>
    ⟨connectionId, info.type, info.createdAt, info.lastUsed, info.queryCount,
      redactConfig info.config⟩

/-- `listConnections()` (src/index.js lines 388-390): map
`getConnectionInfo` over every registered key. -/
def listConnections (st : ReaderState) : List (Option ConnectionInfo) :=
  st.connections.map fun kv => getConnectionInfo st kv.1

/-! ## Document-store dispatch (`queryMongoDB`, src/index.js lines 308-339) -/

/-- The structured document-store request `{collection, operation, ...}`.
`limit` carries the `options.limit` field used by `getTableSchema`'s canned
request; other operation arguments are opaque to the dispatch logic. -/
structure MongoQuery where
  collection : Option String
  operation : Option String
  limit : Option ℕ := none
deriving DecidableEq, Repr

/-- JavaScript truthiness for the destructured `collection`/`operation`
fields: absent (`undefined`) and the empty string are falsy. -/
def falsyStr : Option String → Bool
  | none => true
  | some s => s = ""

/-- The fixed operation set of the `switch` in `queryMongoDB`. -/
def mongoOperations : List String :=
  ["find", "findOne", "insertOne", "insertMany", "updateOne", "updateMany",
   "deleteOne", "deleteMany", "aggregate"]

/-- Observable interactions with the driver's database object during
`queryMongoDB`. -/
inductive MongoEvent where
  /-- `db.collection(name)`: obtaining the collection handle. -/
  | getCollection (name : String)
  /-- invoking the named method on the collection handle. -/
  | invoke (method : String)
deriving DecidableEq, Repr

/-- `queryMongoDB(db, query, params)` (src/index.js lines 308-339).  The
driver results are opaque; a dispatched call is modelled as `.ok op`.
The source obtains the handle (`db.collection(collection)`) before the
`switch`, and throws on the `default` branch. -/
def queryMongoDB (q : MongoQuery) : Except String String × List MongoEvent :=
  if falsyStr q.collection || falsyStr q.operation then
    (.error "MongoDB query must specify collection and operation", [])
  else
    let c := q.collection.getD ""
    let op := q.operation.getD ""
    if op ∈ mongoOperations then
      (.ok op, [.getCollection c, .invoke op])
    else
      (.error ("Unsupported MongoDB operation: " ++ op), [.getCollection c])

/-! ## Table introspection (src/index.js lines 400-457) -/

/-- The request a `getTables`/`getTableSchema` call issues. -/
inductive IntrospectionRequest where
  /-- a text query routed through `this.query(connectionId, query, params)`. -/
  | sql (query : String) (params : List String)
  /-- a structured request routed through `this.query`. -/
  | mongo (q : MongoQuery)
  /-- the driver metadata call `db.listCollections().toArray()`. -/
  | listCollections
deriving DecidableEq, Repr

/-- `getTables(connectionId)` (src/index.js lines 400-425), as the request
it issues for the registered connection's kind. -/
def getTables (st : ReaderState) (connectionId : String) :
    Except String IntrospectionRequest :=
  match alookup connectionId st.connections with
  | none => .error ("No connection found with id: " ++ connectionId)
  | some info =>
    match info.type with
    | "sqlite" =>
      .ok (.sql "SELECT name FROM sqlite_master WHERE type='table' AND name NOT LIKE 'sqlite_%'" [])
    | "mysql" => .ok (.sql "SHOW TABLES" [])
    | "postgres" =>
      .ok (.sql "SELECT tablename FROM pg_tables WHERE schemaname = 'public'" [])
    | "mongodb" => .ok .listCollections
    | t => .error ("getTables not implemented for " ++ t)

/-- The multi-line template literal of `getTableSchema`'s postgres branch,
byte for byte (embedded newlines and continuation-line indentation
included). -/
def pgSchemaTemplate : String :=
  "SELECT column_name, data_type, is_nullable \n           FROM information_schema.columns \n           WHERE table_name = $1"

/-- `getTableSchema(connectionId, tableName)` (src/index.js lines 427-457),
as the request it issues for the registered connection's kind. -/
def getTableSchema (st : ReaderState) (connectionId : String)
    (tableName : String) : Except String IntrospectionRequest :=
  match alookup connectionId st.connections with
  | none => .error ("No connection found with id: " ++ connectionId)
  | some info =>
    match info.type with
    | "sqlite" => .ok (.sql ("PRAGMA table_info(" ++ tableName ++ ")") [])
    | "mysql" => .ok (.sql ("DESCRIBE " ++ tableName) [])
    | "postgres" => .ok (.sql pgSchemaTemplate [tableName])
    | "mongodb" =>
      .ok (.mongo { collection := some tableName, operation := some "find", limit := some 1 })
    | t => .error ("getTableSchema not implemented for " ++ t)

/-! ## Connection-id generation (`generateConnectionId`, src/index.js lines 342-344) -/

/-- Decimal digit to character, as JavaScript's base-10 number rendering
produces. -/
def digitChar (d : ℕ) : Char :=
  match d with
  | 0 => '0' | 1 => '1' | 2 => '2' | 3 => '3' | 4 => '4'
  | 5 => '5' | 6 => '6' | 7 => '7' | 8 => '8' | 9 => '9'
  | _ => '?'

/-- Fuel-bounded most-significant-first decimal rendering of a natural
number (empty for 0); fuel ≥ the value suffices. -/
def natCharsAux : ℕ → ℕ → List Char
  | 0, _ => []
  | fuel + 1, n =>
    if n = 0 then [] else natCharsAux fuel (n / 10) ++ [digitChar (n % 10)]

/-- The decimal rendering of `Date.now()` as interpolated into the template
literal (JavaScript renders integers in base 10, `0` as `"0"`). -/
def natChars (n : ℕ) : List Char :=
  if n = 0 then ['0'] else natCharsAux n n

/-- Base-36 digit to character, as `Number.prototype.toString(36)`
produces (`0`-`9` then `a`-`z`). -/
def base36Char (d : Fin 36) : Char :=
  match d.val with
  | 0 => '0' | 1 => '1' | 2 => '2' | 3 => '3' | 4 => '4' | 5 => '5'
  | 6 => '6' | 7 => '7' | 8 => '8' | 9 => '9' | 10 => 'a' | 11 => 'b'
  | 12 => 'c' | 13 => 'd' | 14 => 'e' | 15 => 'f' | 16 => 'g' | 17 => 'h'
  | 18 => 'i' | 19 => 'j' | 20 => 'k' | 21 => 'l' | 22 => 'm' | 23 => 'n'
  | 24 => 'o' | 25 => 'p' | 26 => 'q' | 27 => 'r' | 28 => 's' | 29 => 't'
  | 30 => 'u' | 31 => 'v' | 32 => 'w' | 33 => 'x' | 34 => 'y' | 35 => 'z'
  | _ => '?'

/-- `Math.random().toString(36).substr(2, 9)`: `digits` is the list of
base-36 fraction digits of the random value (trailing zeros trimmed by
`toString`); `toString(36)` yields `"0." + digits` for a non-zero value and
`"0"` for zero (modelled by `digits = []`), so `substr(2, 9)` keeps the
first at most nine fraction digits — and is empty when the random value
is `0`. -/
def randomSuffix (digits : List (Fin 36)) : List Char :=
  (digits.take 9).map base36Char

/-- `generateConnectionId(type)` (src/index.js lines 342-344):
`` `${type}-${Date.now()}-${Math.random().toString(36).substr(2, 9)}` ``,
with `Date.now()` and the random fraction digits passed explicitly. -/
def generateConnectionId (type : String) (now : ℕ) (digits : List (Fin 36)) : String :=
  ⟨type.data ++ ('-' :: (natChars now ++ ('-' :: randomSuffix digits)))⟩

/-- Characters allowed by the claim's suffix pattern (the repository's own
test matches the suffix against `[a-z0-9]+`). -/
def isLowerAlnum (c : Char) : Bool :=
  c.isDigit || (97 ≤ c.toNat && c.toNat ≤ 122)

/-- Strip an expected prefix from a character list. -/
def stripPrefixChars : List Char → List Char → Option (List Char)
  | [], rest => some rest
  | _ :: _, [] => none
  | p :: ps, c :: cs => if c = p then stripPrefixChars ps cs else none

/-- Decide whether `l` has the shape `kind ++ "-" ++ digits ++ "-" ++ suffix`
with non-empty decimal `digits` and non-empty lower-alphanumeric `suffix` —
the claim's id pattern `{backendKind}-{digits}-{alnum}`. -/
def checkIdChars (kind : List Char) (l : List Char) : Bool :=
  match stripPrefixChars kind l with
  | none => false
  | some rest =>
    match rest with
    | '-' :: rest2 =>
      let ds := rest2.takeWhile Char.isDigit
      let rest3 := rest2.drop ds.length
      decide (ds ≠ []) &&
        (match rest3 with
         | '-' :: sfx => decide (sfx ≠ []) && sfx.all isLowerAlnum
         | _ => false)
    | _ => false

/-- The claim's id pattern, on strings. -/
def matchesIdPattern (kind id : String) : Bool :=
  checkIdChars kind.data id.data

/-! ## Lemmas about the retry loop -/

theorem retryLoop_ok {E A : Type} (fn : ℕ → Except E A) (f M : ℚ)
    (rem i : ℕ) (dv : ℚ) (slept : List ℚ) (a : A) (h : fn i = .ok a) :
    retryLoop fn f M rem i dv slept = ⟨.ok a, i + 1, slept⟩ := by
  cases rem <;> simp [retryLoop, h]

theorem retryLoop_error_zero {E A : Type} (fn : ℕ → Except E A) (f M : ℚ)
    (i : ℕ) (dv : ℚ) (slept : List ℚ) (e : E) (h : fn i = .error e) :
    retryLoop fn f M 0 i dv slept = ⟨.error e, i + 1, slept⟩ := by
  conv_lhs => rw [retryLoop]
  rw [h]

theorem retryLoop_error_succ {E A : Type} (fn : ℕ → Except E A) (f M : ℚ)
    (r i : ℕ) (dv : ℚ) (slept : List ℚ) (e : E) (h : fn i = .error e) :
    retryLoop fn f M (r + 1) i dv slept =
      retryLoop fn f M r (i + 1) (min (dv * f) M) (slept ++ [dv]) := by
  conv_lhs => rw [retryLoop]
  rw [h]

theorem retryLoop_success {E A : Type} (fn : ℕ → Except E A) (f M : ℚ)
    (err : ℕ → E) (a : A) :
    ∀ (k rem i : ℕ) (dv : ℚ) (slept : List ℚ), k ≤ rem →
      (∀ j, i ≤ j → j < i + k → fn j = .error (err j)) →
      fn (i + k) = .ok a →
      (retryLoop fn f M rem i dv slept).result = .ok a ∧
        (retryLoop fn f M rem i dv slept).attempts = i + k + 1 := by
  intro k
  induction k with
  | zero =>
    intro rem i dv slept _ _ hok
    rw [retryLoop_ok fn f M rem i dv slept a (by simpa using hok)]
    simp
  | succ k ih =>
    intro rem i dv slept hk herr hok
    have hi : fn i = .error (err i) := herr i le_rfl (by omega)
    obtain ⟨r, rfl⟩ : ∃ r, rem = r + 1 := ⟨rem - 1, by omega⟩
    rw [retryLoop_error_succ fn f M r i dv slept (err i) hi]
    have hrest := ih r (i + 1) (min (dv * f) M) (slept ++ [dv]) (by omega)
      (fun j hj1 hj2 => herr j (by omega) (by omega)) (by
        have heq : i + 1 + k = i + (k + 1) := by omega
        rw [heq]; exact hok)
    exact ⟨hrest.1, hrest.2.trans (by omega)⟩

theorem retryLoop_fail {E A : Type} (fn : ℕ → Except E A) (f M : ℚ) (err : ℕ → E) :
    ∀ (rem i : ℕ) (dv : ℚ) (slept : List ℚ),
      (∀ j, i ≤ j → j ≤ i + rem → fn j = .error (err j)) →
      (retryLoop fn f M rem i dv slept).result = .error (err (i + rem)) ∧
        (retryLoop fn f M rem i dv slept).attempts = i + rem + 1 := by
  intro rem
  induction rem with
  | zero =>
    intro i dv slept herr
    have hi : fn i = .error (err i) := herr i le_rfl (by omega)
    rw [retryLoop_error_zero fn f M i dv slept (err i) hi]
    simp
  | succ r ih =>
    intro i dv slept herr
    have hi : fn i = .error (err i) := herr i le_rfl (by omega)
    rw [retryLoop_error_succ fn f M r i dv slept (err i) hi]
    have hrest := ih (i + 1) (min (dv * f) M) (slept ++ [dv])
      (fun j hj1 hj2 => herr j (by omega) (by omega))
    have harg : i + 1 + r = i + (r + 1) := by omega
    rw [harg] at hrest
    exact ⟨hrest.1, hrest.2.trans (by omega)⟩

theorem min_backoff_step_ge (m M f : ℚ) (hm0 : 0 ≤ m) (hmM : m ≤ M) (hf : 1 ≤ f)
    (i : ℕ) : min (min (m * f ^ i) M * f) M = min (m * f ^ (i + 1)) M := by
  rcases le_or_lt (m * f ^ i) M with h | h
  · rw [min_eq_left h, pow_succ, ← mul_assoc]
  · have hM0 : 0 ≤ M := le_trans hm0 hmM
    have hfi : 0 ≤ m * f ^ i := le_trans hM0 (le_of_lt h)
    have h1 : M ≤ M * f := le_mul_of_one_le_right hM0 hf
    have h2 : M ≤ m * f ^ (i + 1) := by
      calc M ≤ m * f ^ i := le_of_lt h
        _ ≤ m * f ^ i * f := le_mul_of_one_le_right hfi hf
        _ = m * f ^ (i + 1) := by rw [pow_succ, mul_assoc]
    rw [min_eq_right (le_of_lt h), min_eq_right h1, min_eq_right h2]

theorem retryLoop_delays_ge {E A : Type} (fn : ℕ → Except E A) (f M m : ℚ)
    (hm0 : 0 ≤ m) (hmM : m ≤ M) (hf : 1 ≤ f) :
    ∀ (rem i : ℕ) (dv : ℚ) (slept : List ℚ),
      slept.length = i →
      (∀ j, j < i → slept[j]? = some (min (m * f ^ j) M)) →
      dv = min (m * f ^ i) M →
      ∀ j, j < (retryLoop fn f M rem i dv slept).delays.length →
        (retryLoop fn f M rem i dv slept).delays[j]? = some (min (m * f ^ j) M) := by
  intro rem
  induction rem with
  | zero =>
    intro i dv slept hlen hent hdv j hj
    cases hfn : fn i with
    | ok a =>
      rw [retryLoop_ok fn f M 0 i dv slept a hfn] at hj ⊢
      have hj' : j < slept.length := hj
      exact hent j (by omega)
    | error e =>
      rw [retryLoop_error_zero fn f M i dv slept e hfn] at hj ⊢
      have hj' : j < slept.length := hj
      exact hent j (by omega)
  | succ r ih =>
    intro i dv slept hlen hent hdv j hj
    cases hfn : fn i with
    | ok a =>
      rw [retryLoop_ok fn f M (r + 1) i dv slept a hfn] at hj ⊢
      have hj' : j < slept.length := hj
      exact hent j (by omega)
    | error e =>
      rw [retryLoop_error_succ fn f M r i dv slept e hfn] at hj ⊢
      refine ih (i + 1) (min (dv * f) M) (slept ++ [dv]) (by simp [hlen]) ?_ ?_ j hj
      · intro j' hj'
        by_cases hji : j' < i
        · rw [List.getElem?_append_left (by rw [hlen]; exact hji)]
          exact hent j' hji
        · have hje : j' = i := by omega
          subst hje
          have hconc : (slept ++ [dv])[slept.length]? = some dv :=
            List.getElem?_concat_length _ _
          rw [hlen] at hconc
          rw [hconc, hdv]
      · rw [hdv]
        exact min_backoff_step_ge m M f hm0 hmM hf i

theorem retryLoop_delays_le {E A : Type} (fn : ℕ → Except E A) (f M m : ℚ)
    (hm0 : 0 ≤ m) (hmM : m ≤ M) (hf0 : 0 ≤ f) (hf1 : f ≤ 1) :
    ∀ (rem i : ℕ) (dv : ℚ) (slept : List ℚ),
      slept.length = i →
      (∀ j, j < i → slept[j]? = some (min (m * f ^ j) M)) →
      dv = m * f ^ i →
      ∀ j, j < (retryLoop fn f M rem i dv slept).delays.length →
        (retryLoop fn f M rem i dv slept).delays[j]? = some (min (m * f ^ j) M) := by
  have hbound : ∀ j : ℕ, m * f ^ j ≤ M := fun j =>
    le_trans (mul_le_of_le_one_right hm0 (pow_le_one₀ hf0 hf1)) hmM
  intro rem
  induction rem with
  | zero =>
    intro i dv slept hlen hent hdv j hj
    cases hfn : fn i with
    | ok a =>
      rw [retryLoop_ok fn f M 0 i dv slept a hfn] at hj ⊢
      have hj' : j < slept.length := hj
      exact hent j (by omega)
    | error e =>
      rw [retryLoop_error_zero fn f M i dv slept e hfn] at hj ⊢
      have hj' : j < slept.length := hj
      exact hent j (by omega)
  | succ r ih =>
    intro i dv slept hlen hent hdv j hj
    cases hfn : fn i with
    | ok a =>
      rw [retryLoop_ok fn f M (r + 1) i dv slept a hfn] at hj ⊢
      have hj' : j < slept.length := hj
      exact hent j (by omega)
    | error e =>
      rw [retryLoop_error_succ fn f M r i dv slept e hfn] at hj ⊢
      refine ih (i + 1) (min (dv * f) M) (slept ++ [dv]) (by simp [hlen]) ?_ ?_ j hj
      · intro j' hj'
        by_cases hji : j' < i
        · rw [List.getElem?_append_left (by rw [hlen]; exact hji)]
          exact hent j' hji
        · have hje : j' = i := by omega
          subst hje
          have hconc : (slept ++ [dv])[slept.length]? = some dv :=
            List.getElem?_concat_length _ _
          rw [hlen] at hconc
          rw [hconc, hdv, min_eq_left (hbound j')]
      · rw [hdv]
        have hstep : m * f ^ i * f = m * f ^ (i + 1) := by rw [pow_succ, mul_assoc]
        rw [hstep, min_eq_left (hbound (i + 1))]

/-! ## Claim C2 -/

/-- **C2**: for every operation and retry policy, if the operation fails
`k ≤ maxRetries` times and then succeeds, `executeWithRetry` returns the
success value and invokes the operation exactly `k + 1` times; if the
operation fails on all `maxRetries + 1` attempts, it invokes it exactly
`maxRetries + 1` times and surfaces the final (most recent) failure
unchanged (the very error value of the last attempt). -/
theorem executeWithRetry_attempt_spec {E A : Type} (opts : RetryOptions)
    (fn : ℕ → Except E A) (err : ℕ → E) :
    (∀ (a : A) (k : ℕ), k ≤ opts.retries →
        (∀ i, i < k → fn i = .error (err i)) → fn k = .ok a →
        (executeWithRetry fn opts).result = .ok a ∧
          (executeWithRetry fn opts).attempts = k + 1) ∧
      ((∀ i, i ≤ opts.retries → fn i = .error (err i)) →
        (executeWithRetry fn opts).result = .error (err opts.retries) ∧
          (executeWithRetry fn opts).attempts = opts.retries + 1) := by
  constructor
  · intro a k hk herr hok
    have h := retryLoop_success fn opts.factor opts.maxTimeout err a k opts.retries 0
      opts.minTimeout [] hk (fun j _ hj2 => herr j (by omega)) (by simpa using hok)
    exact ⟨h.1, by simpa [executeWithRetry] using h.2⟩
  · intro herr
    have h := retryLoop_fail fn opts.factor opts.maxTimeout err opts.retries 0
      opts.minTimeout [] (fun j _ hj2 => herr j (by omega))
    exact ⟨by simpa [executeWithRetry] using h.1,
      by simpa [executeWithRetry] using h.2⟩

/-- Witness for C2: with policy `retries = 3` an operation failing twice
then succeeding returns the success value in exactly 3 attempts, and an
always-failing operation surfaces the last error after exactly 4 attempts. -/
theorem executeWithRetry_attempt_spec_witness :
    ((executeWithRetry (fun i => if i < 2 then Except.error "boom" else Except.ok "rows")
        ⟨3, 2, 1000, 5000⟩).result = Except.ok "rows" ∧
      (executeWithRetry (fun i => if i < 2 then Except.error "boom" else Except.ok "rows")
        ⟨3, 2, 1000, 5000⟩).attempts = 2 + 1) ∧
    ((executeWithRetry (fun _ => (Except.error "down" : Except String String))
        ⟨3, 2, 1000, 5000⟩).result = Except.error "down" ∧
      (executeWithRetry (fun _ => (Except.error "down" : Except String String))
        ⟨3, 2, 1000, 5000⟩).attempts = 3 + 1) :=
  ⟨(executeWithRetry_attempt_spec ⟨3, 2, 1000, 5000⟩
      (fun i => if i < 2 then Except.error "boom" else Except.ok "rows")
      (fun _ => "boom")).1 "rows" 2 (by decide)
      (fun i hi => by rw [if_pos hi]) (by rfl),
    (executeWithRetry_attempt_spec ⟨3, 2, 1000, 5000⟩
      (fun _ => (Except.error "down" : Except String String))
      (fun _ => "down")).2 (fun i _ => rfl)⟩

/-! ## Claim C3 -/

/-- **C3 counterexample**: the claimed formula
`delay before retry n = min(minDelay * backoffFactor ^ (n-1), maxDelay)`
fails for policies outside `0 ≤ minDelay ≤ maxDelay`, `0 ≤ backoffFactor`.
With `minDelay = 100 > maxDelay = 10` the first sleep is `100`, not
`min(100, 10) = 10`; with `backoffFactor = -2` (policy
`{retries := 4, minDelay := 1, maxDelay := 3}`) the fourth sleep is `-6`,
not `min(1 * (-2)^3, 3) = -8`. -/
theorem executeWithRetry_delay_formula_counterexample :
    ((executeWithRetry (fun _ => (Except.error "e" : Except String String))
          ⟨1, 2, 100, 10⟩).delays[0]? = some (100 : ℚ) ∧
        min ((100 : ℚ) * 2 ^ (0 : ℕ)) 10 = 10 ∧ (100 : ℚ) ≠ 10) ∧
      ((executeWithRetry (fun _ => (Except.error "e" : Except String String))
          ⟨4, -2, 1, 3⟩).delays[3]? = some (-6 : ℚ) ∧
        min ((1 : ℚ) * (-2) ^ (3 : ℕ)) 3 = -8 ∧ (-6 : ℚ) ≠ -8) :=
  ⟨⟨by norm_num [executeWithRetry, retryLoop, min_def], by norm_num, by norm_num⟩,
    ⟨by norm_num [executeWithRetry, retryLoop, min_def], by norm_num, by norm_num⟩⟩

/-- **C3 (amended)**: for every retry policy with
`0 ≤ minDelay ≤ maxDelay` and `0 ≤ backoffFactor` and every operation, the
delay slept before retry attempt `n ≥ 1` (0-based index `j = n - 1`)
equals `min(minDelay * backoffFactor ^ (n-1), maxDelay)`. -/
theorem executeWithRetry_delay_formula {E A : Type} (fn : ℕ → Except E A)
    (opts : RetryOptions) (hm0 : 0 ≤ opts.minTimeout)
    (hmM : opts.minTimeout ≤ opts.maxTimeout) (hf0 : 0 ≤ opts.factor) :
    ∀ j, j < (executeWithRetry fn opts).delays.length →
      (executeWithRetry fn opts).delays[j]? =
        some (min (opts.minTimeout * opts.factor ^ j) opts.maxTimeout) := by
  rcases le_total opts.factor 1 with hf1 | hf1
  · exact retryLoop_delays_le fn opts.factor opts.maxTimeout opts.minTimeout hm0 hmM
      hf0 hf1 opts.retries 0 opts.minTimeout [] rfl (by omega)
      (by rw [pow_zero, mul_one])
  · exact retryLoop_delays_ge fn opts.factor opts.maxTimeout opts.minTimeout hm0 hmM
      hf1 opts.retries 0 opts.minTimeout [] rfl (by omega)
      (by rw [pow_zero, mul_one, min_eq_left hmM])

/-! ## Evaluation lemmas for `query` -/

theorem executeWithRetry_first_ok {E A : Type} (fn : ℕ → Except E A)
    (opts : RetryOptions) (a : A) (h : fn 0 = .ok a) :
    executeWithRetry fn opts = ⟨.ok a, 1, []⟩ :=
  retryLoop_ok fn opts.factor opts.maxTimeout opts.retries 0 opts.minTimeout [] a h

theorem queryOutcome_state_mk (a : Except String String) (b : ReaderState)
    (c : ℕ) (d : List QEvent) : (⟨a, b, c, d⟩ : QueryOutcome).state = b := rfl

theorem queryOutcome_adapterCalls_mk (a : Except String String) (b : ReaderState)
    (c : ℕ) (d : List QEvent) : (⟨a, b, c, d⟩ : QueryOutcome).adapterCalls = c := rfl

theorem queryOutcome_result_mk (a : Except String String) (b : ReaderState)
    (c : ℕ) (d : List QEvent) : (⟨a, b, c, d⟩ : QueryOutcome).result = a := rfl

theorem queryOutcome_trace_mk (a : Except String String) (b : ReaderState)
    (c : ℕ) (d : List QEvent) : (⟨a, b, c, d⟩ : QueryOutcome).trace = d := rfl

theorem query_cache_miss_eval (st : ReaderState) (id q : String)
    (params : List String) (rec : ConnRecord) (r : String) (now : ℤ)
    (exec : ℕ → Except String String)
    (hConn : alookup id st.connections = some rec)
    (hEn : st.cacheEnabled = true)
    (hMiss : alookup (getCacheKey id q params) st.queryCache = none)
    (hExec : exec 0 = .ok r) :
    query st id q params true now exec =
      ⟨.ok r,
        { st with
            connections :=
              aset id { rec with lastUsed := now, queryCount := rec.queryCount + 1 }
                st.connections,
            queryCache := aset (getCacheKey id q params) ⟨r, now⟩ st.queryCache },
        1,
        [.registryLookup id true, .registryTouch id,
          .cacheLookup (getCacheKey id q params) false, .adapterCall 0,
          .cacheStore (getCacheKey id q params)]⟩ := by
  have h1 : executeWithRetry exec st.retryOptions = ⟨.ok r, 1, []⟩ :=
    executeWithRetry_first_ok exec st.retryOptions r hExec
  simp only [query, hConn, hEn, hMiss, queryMiss, h1]
  rfl

theorem query_cache_hit_eval (st : ReaderState) (id q : String)
    (params : List String) (rec : ConnRecord) (entry : CacheEntry) (now : ℤ)
    (exec : ℕ → Except String String)
    (hConn : alookup id st.connections = some rec)
    (hEn : st.cacheEnabled = true)
    (hHit : alookup (getCacheKey id q params) st.queryCache = some entry)
    (hTTL : now - entry.timestamp < st.cacheTimeout) :
    query st id q params true now exec =
      ⟨.ok entry.result,
        { st with
            connections :=
              aset id { rec with lastUsed := now, queryCount := rec.queryCount + 1 }
                st.connections },
        0,
        [.registryLookup id true, .registryTouch id,
          .cacheLookup (getCacheKey id q params) true]⟩ := by
  simp only [query, hConn, hEn, hHit]
  rw [if_pos hTTL]
  rfl

theorem query_nocache_eval (st : ReaderState) (id q : String)
    (params : List String) (rec : ConnRecord) (r : String) (now : ℤ)
    (exec : ℕ → Except String String)
    (hConn : alookup id st.connections = some rec)
    (hExec : exec 0 = .ok r) :
    query st id q params false now exec =
      ⟨.ok r,
        { st with
            connections :=
              aset id { rec with lastUsed := now, queryCount := rec.queryCount + 1 }
                st.connections },
        1,
        [.registryLookup id true, .registryTouch id, .adapterCall 0]⟩ := by
  have h1 : executeWithRetry exec st.retryOptions = ⟨.ok r, 1, []⟩ :=
    executeWithRetry_first_ok exec st.retryOptions r hExec
  simp only [query, hConn, queryMiss, h1, Bool.and_false, Bool.false_eq_true, if_false]
  rfl

/-! ## Claim C1 -/

/-- **C1**: with caching enabled and no TTL expiry, for every connection id
and every (query, params) pair not already cached, two identical `query`
calls on the same connection invoke the underlying adapter's execute
exactly once in total (the second returns the cached result); if the second
call passes `cache:false`, the adapter is invoked twice in total. -/
theorem query_cache_once_spec (st : ReaderState) (id q : String)
    (params : List String) (rec : ConnRecord) (r r2 : String) (now1 now2 : ℤ)
    (exec1 exec2 : ℕ → Except String String)
    (hConn : alookup id st.connections = some rec)
    (hEn : st.cacheEnabled = true)
    (hMiss : alookup (getCacheKey id q params) st.queryCache = none)
    (hExec1 : exec1 0 = .ok r)
    (hExec2 : exec2 0 = .ok r2)
    (hTTL : now2 - now1 < st.cacheTimeout) :
    (query st id q params true now1 exec1).adapterCalls +
        (query (query st id q params true now1 exec1).state id q params true now2
          exec2).adapterCalls = 1 ∧
      (query (query st id q params true now1 exec1).state id q params true now2
          exec2).result = .ok r ∧
      (query st id q params true now1 exec1).adapterCalls +
        (query (query st id q params true now1 exec1).state id q params false now2
          exec2).adapterCalls = 2 := by
  have h1 := query_cache_miss_eval st id q params rec r now1 exec1 hConn hEn hMiss hExec1
  have hConn1 :
      alookup id
          (aset id { rec with lastUsed := now1, queryCount := rec.queryCount + 1 }
            st.connections) =
        some { rec with lastUsed := now1, queryCount := rec.queryCount + 1 } :=
    alookup_aset_self _ _ _
  have hHit1 :
      alookup (getCacheKey id q params)
          (aset (getCacheKey id q params) (⟨r, now1⟩ : CacheEntry) st.queryCache) =
        some ⟨r, now1⟩ :=
    alookup_aset_self _ _ _
  have h2 := query_cache_hit_eval
    { st with
        connections :=
          aset id { rec with lastUsed := now1, queryCount := rec.queryCount + 1 }
            st.connections,
        queryCache := aset (getCacheKey id q params) ⟨r, now1⟩ st.queryCache }
    id q params { rec with lastUsed := now1, queryCount := rec.queryCount + 1 }
    ⟨r, now1⟩ now2 exec2 hConn1 hEn hHit1 hTTL
  have h3 := query_nocache_eval
    { st with
        connections :=
          aset id { rec with lastUsed := now1, queryCount := rec.queryCount + 1 }
            st.connections,
        queryCache := aset (getCacheKey id q params) ⟨r, now1⟩ st.queryCache }
    id q params { rec with lastUsed := now1, queryCount := rec.queryCount + 1 }
    r2 now2 exec2 hConn1 hExec2
  simp only [h1, queryOutcome_state_mk, queryOutcome_adapterCalls_mk,
    queryOutcome_result_mk, h2, h3]
  exact ⟨trivial, trivial, trivial⟩

/-- Witness for C1: a concrete reader with caching enabled, one sqlite
connection and an empty cache; two identical queries cost one adapter call,
the `cache:false` variant costs a second one. -/
theorem query_cache_once_spec_witness :
    (query ⟨[("c1", ⟨"sqlite", [], 0, 0, 0⟩)], true, [], 300000, 10,
          ⟨3, 2, 1000, 5000⟩⟩ "c1" "SELECT 1" [] true 1000
        (fun _ => .ok "rows")).adapterCalls +
        (query (query ⟨[("c1", ⟨"sqlite", [], 0, 0, 0⟩)], true, [], 300000, 10,
              ⟨3, 2, 1000, 5000⟩⟩ "c1" "SELECT 1" [] true 1000
            (fun _ => .ok "rows")).state "c1" "SELECT 1" [] true 2000
          (fun _ => .ok "rows")).adapterCalls = 1 ∧
      (query (query ⟨[("c1", ⟨"sqlite", [], 0, 0, 0⟩)], true, [], 300000, 10,
            ⟨3, 2, 1000, 5000⟩⟩ "c1" "SELECT 1" [] true 1000
          (fun _ => .ok "rows")).state "c1" "SELECT 1" [] true 2000
        (fun _ => .ok "rows")).result = .ok "rows" ∧
      (query ⟨[("c1", ⟨"sqlite", [], 0, 0, 0⟩)], true, [], 300000, 10,
          ⟨3, 2, 1000, 5000⟩⟩ "c1" "SELECT 1" [] true 1000
        (fun _ => .ok "rows")).adapterCalls +
        (query (query ⟨[("c1", ⟨"sqlite", [], 0, 0, 0⟩)], true, [], 300000, 10,
              ⟨3, 2, 1000, 5000⟩⟩ "c1" "SELECT 1" [] true 1000
            (fun _ => .ok "rows")).state "c1" "SELECT 1" [] false 2000
          (fun _ => .ok "rows")).adapterCalls = 2 :=
  query_cache_once_spec
    ⟨[("c1", ⟨"sqlite", [], 0, 0, 0⟩)], true, [], 300000, 10, ⟨3, 2, 1000, 5000⟩⟩
    "c1" "SELECT 1" [] ⟨"sqlite", [], 0, 0, 0⟩ "rows" "rows" 1000 2000
    (fun _ => .ok "rows") (fun _ => .ok "rows") rfl rfl rfl rfl rfl (by decide)

/-! ## Claim C5 -/

/-- **C5 counterexample**: on a concrete cache-enabled reader, the trace of
a `query` call is registry lookup, then the registry counter update
(`lastUsed`/`queryCount`), then cache lookup, then the adapter call, then
the cache store — the counter update occurs at position 1, strictly before
the adapter call at position 3, contradicting the claim that the registry
counter update happens last, after the adapter call. -/
theorem query_step_order_counterexample :
    (query ⟨[("c1", ⟨"sqlite", [], 0, 0, 0⟩)], true, [], 300000, 10,
          ⟨3, 2, 1000, 5000⟩⟩ "c1" "SELECT 1" [] true 1000
        (fun _ => .ok "rows")).trace =
      [.registryLookup "c1" true, .registryTouch "c1",
        .cacheLookup (getCacheKey "c1" "SELECT 1" []) false, .adapterCall 0,
        .cacheStore (getCacheKey "c1" "SELECT 1" [])] ∧
      List.indexOf (QEvent.registryTouch "c1")
          (query ⟨[("c1", ⟨"sqlite", [], 0, 0, 0⟩)], true, [], 300000, 10,
              ⟨3, 2, 1000, 5000⟩⟩ "c1" "SELECT 1" [] true 1000
            (fun _ => .ok "rows")).trace <
        List.indexOf (QEvent.adapterCall 0)
          (query ⟨[("c1", ⟨"sqlite", [], 0, 0, 0⟩)], true, [], 300000, 10,
              ⟨3, 2, 1000, 5000⟩⟩ "c1" "SELECT 1" [] true 1000
            (fun _ => .ok "rows")).trace := by
  constructor
  · rfl
  · decide

/-- **C5 (amended)**: for every `query` call on a registered connection
with caching enabled, not bypassed and a cache miss, the steps occur in
this order: registry lookup, then the registry counter update
(`lastUsedAt`, `queryCount`), then the cache lookup, then the retry-wrapped
adapter execution, then the cache store.  (The source updates the registry
counters immediately after the lookup, before consulting the cache, not
last.) -/
theorem query_step_order (st : ReaderState) (id q : String)
    (params : List String) (rec : ConnRecord) (r : String) (now : ℤ)
    (exec : ℕ → Except String String)
    (hConn : alookup id st.connections = some rec)
    (hEn : st.cacheEnabled = true)
    (hMiss : alookup (getCacheKey id q params) st.queryCache = none)
    (hExec : exec 0 = .ok r) :
    (query st id q params true now exec).trace =
      [.registryLookup id true, .registryTouch id,
        .cacheLookup (getCacheKey id q params) false, .adapterCall 0,
        .cacheStore (getCacheKey id q params)] := by
  rw [query_cache_miss_eval st id q params rec r now exec hConn hEn hMiss hExec]

/-- Witness for C5 (amended): the trace of a concrete cache-miss query. -/
theorem query_step_order_witness :
    (query ⟨[("c2", ⟨"postgres", [], 5, 5, 0⟩)], true, [], 60000, 10,
          ⟨3, 2, 1000, 5000⟩⟩ "c2" "SELECT 2" [] true 100
        (fun _ => .ok "ok")).trace =
      [.registryLookup "c2" true, .registryTouch "c2",
        .cacheLookup (getCacheKey "c2" "SELECT 2" []) false, .adapterCall 0,
        .cacheStore (getCacheKey "c2" "SELECT 2" [])] :=
  query_step_order
    ⟨[("c2", ⟨"postgres", [], 5, 5, 0⟩)], true, [], 60000, 10, ⟨3, 2, 1000, 5000⟩⟩
    "c2" "SELECT 2" [] ⟨"postgres", [], 5, 5, 0⟩ "ok" 100 (fun _ => .ok "ok")
    rfl rfl rfl rfl

/-! ## Claim C4 -/

/-- **C4 counterexample**: with the registry at its configured maximum
(`maxConnections = 1`, one stored connection), `connect` with the
unrecognized type `"invalid"` fails with the capacity error, not with
`UnsupportedBackend` — the source checks the connection limit before
validating the type. -/
theorem connect_unsupported_counterexample :
    connect
        ⟨[("a", ⟨"sqlite", [], 0, 0, 0⟩)], false, [], 300000, 1, ⟨3, 2, 1000, 5000⟩⟩
        "invalid" none "gen" [] (.ok ()) 0 =
      .error "Maximum connections (1) reached" ∧
      "Maximum connections (1) reached" ≠ "Unsupported database type: invalid" := by
  constructor
  · rfl
  · decide

/-- **C4 (amended)**: whenever the registry is strictly below its
configured maximum, `connect` with a type outside the four recognized
backend kinds fails with the `UnsupportedBackend` error, regardless of the
other config fields; at or above capacity the capacity error takes
precedence. -/
theorem connect_unsupported_below_capacity (st : ReaderState) (cfgType : String)
    (suppliedId : Option String) (genId : String) (config : List (String × String))
    (handshake : Except String Unit) (now : ℤ)
    (hcap : st.connections.length < st.maxConnections)
    (htype : cfgType ∉ supportedTypes) :
    connect st cfgType suppliedId genId config handshake now =
      .error ("Unsupported database type: " ++ cfgType) := by
  simp only [connect]
  rw [if_neg (not_le.mpr hcap), if_pos htype]

/-- Witness for C4 (amended): an empty registry with capacity 10 rejects
type `"redis"` with the `UnsupportedBackend` message whatever the config
holds. -/
theorem connect_unsupported_below_capacity_witness :
    connect ⟨[], false, [], 300000, 10, ⟨3, 2, 1000, 5000⟩⟩ "redis" none "gen"
        [("host", "h"), ("password", "p")] (.ok ()) 0 =
      .error "Unsupported database type: redis" :=
  connect_unsupported_below_capacity
    ⟨[], false, [], 300000, 10, ⟨3, 2, 1000, 5000⟩⟩ "redis" none "gen"
    [("host", "h"), ("password", "p")] (.ok ()) 0 (by decide) (by decide)

/-! ## Claim C6 -/

/-- **C6 counterexample**: the structured request
`{collection:'x', operation:'unknownOp'}` fails with
`UnsupportedOperation`, but the collection handle *is* obtained: the event
list is `[getCollection "x"]`, not empty — `db.collection(collection)` runs
before the operation `switch`. -/
theorem queryMongoDB_unknown_op_counterexample :
    (queryMongoDB ⟨some "x", some "unknownOp", none⟩).1 =
        .error "Unsupported MongoDB operation: unknownOp" ∧
      (queryMongoDB ⟨some "x", some "unknownOp", none⟩).2 ≠ ([] : List MongoEvent) ∧
      MongoEvent.getCollection "x" ∈ (queryMongoDB ⟨some "x", some "unknownOp", none⟩).2 := by
  refine ⟨rfl, by decide, by decide⟩

/-- **C6 (amended)**: for every structured document-store request with
truthy `collection` and `operation` whose operation lies outside the fixed
nine-element set, execution fails with `UnsupportedOperation` without ever
*invoking* any method on the collection handle — the handle itself is
obtained (`db.collection`) before the dispatch, but no operation is called
on it. -/
theorem queryMongoDB_unknown_op (c op : String) (lim : Option ℕ)
    (hc : c ≠ "") (hop : op ≠ "") (hmem : op ∉ mongoOperations) :
    queryMongoDB ⟨some c, some op, lim⟩ =
        (.error ("Unsupported MongoDB operation: " ++ op), [.getCollection c]) ∧
      ∀ m, MongoEvent.invoke m ∉ (queryMongoDB ⟨some c, some op, lim⟩).2 := by
  have h : queryMongoDB ⟨some c, some op, lim⟩ =
      (.error ("Unsupported MongoDB operation: " ++ op), [.getCollection c]) := by
    simp [queryMongoDB, falsyStr, hc, hop, hmem]
  refine ⟨h, ?_⟩
  intro m hm
  rw [h] at hm
  simp at hm

/-- Witness for C6 (amended): the request
`{collection:'x', operation:'unknownOp'}`. -/
theorem queryMongoDB_unknown_op_witness :
    queryMongoDB ⟨some "x", some "unknownOp", none⟩ =
      (.error "Unsupported MongoDB operation: unknownOp",
        [.getCollection "x"]) :=
  (queryMongoDB_unknown_op "x" "unknownOp" none (by decide) (by decide)
    (by decide)).1

/-! ## Claim C7 -/

theorem getConnectionInfo_password (st : ReaderState) (id : String)
    (info : ConnectionInfo) (h : getConnectionInfo st id = some info) :
    alookup "password" info.config = some "***" := by
  rcases halo : alookup id st.connections with _ | rec
  · rw [getConnectionInfo, halo] at h
    simp at h
  · rw [getConnectionInfo, halo] at h
    have hinfo : info =
        ⟨id, rec.type, rec.createdAt, rec.lastUsed, rec.queryCount,
          redactConfig rec.config⟩ := (Option.some_inj.mp h).symm
    rw [hinfo]
    exact alookup_aset_self _ _ _

/-- **C7**: neither `getConnectionInfo` nor `listConnections` ever exposes
a raw credential: every returned summary renders the `password` field as
the fixed marker `***`, and when the stored config holds a password other
than the marker itself, the returned summary does not contain it. -/
theorem connectionInfo_password_redacted (st : ReaderState) :
    (∀ id info, getConnectionInfo st id = some info →
        alookup "password" info.config = some "***" ∧
          ∀ rec pw, alookup id st.connections = some rec →
            alookup "password" rec.config = some pw → pw ≠ "***" →
            ¬alookup "password" info.config = some pw) ∧
      ∀ o ∈ listConnections st, ∀ info, o = some info →
        alookup "password" info.config = some "***" := by
  constructor
  · intro id info h
    refine ⟨getConnectionInfo_password st id info h, ?_⟩
    intro rec pw _ _ hne hcontra
    rw [getConnectionInfo_password st id info h] at hcontra
    exact hne (Option.some_inj.mp hcontra).symm
  · intro o ho info ho2
    obtain ⟨kv, _, heq⟩ := List.mem_map.mp ho
    exact getConnectionInfo_password st kv.1 info (heq.trans ho2)

/-- Witness for C7: a registry holding the password `hunter2` reports it as
`***` through `getConnectionInfo`. -/
theorem connectionInfo_password_redacted_witness :
    alookup "password"
        (ConnectionInfo.config
          ⟨"c1", "mysql", 0, 0, 0,
            redactConfig [("user", "u"), ("password", "hunter2")]⟩) =
      some "***" :=
  ((connectionInfo_password_redacted
      ⟨[("c1", ⟨"mysql", [("user", "u"), ("password", "hunter2")], 0, 0, 0⟩)],
        false, [], 300000, 10, ⟨3, 2, 1000, 5000⟩⟩).1 "c1"
    ⟨"c1", "mysql", 0, 0, 0, redactConfig [("user", "u"), ("password", "hunter2")]⟩
    rfl).1

/-! ## Claim C10 -/

theorem alookup_aerase_self {α : Type} (k : String) (l : List (String × α)) :
    alookup k (aerase k l) = none := by
  induction l with
  | nil => rfl
  | cons hd tl ih =>
    obtain ⟨k0, v0⟩ := hd
    by_cases h : k0 = k
    · simpa [aerase, h] using ih
    · simpa [aerase, alookup, h] using ih

/-- **C10**: for every registered connection, if the driver's close/end
call fails during `disconnect`, the error propagates unchanged to the
caller and the connection record remains in the registry (the state is
untouched); the record is deleted exactly when the driver close completes
successfully. -/
theorem disconnect_atomic (st : ReaderState) (id : String) (rec : ConnRecord)
    (e : String) (hConn : alookup id st.connections = some rec) :
    disconnect st id (.error e) = (.error e, st) ∧
      alookup id (disconnect st id (.error e)).2.connections = some rec ∧
      (disconnect st id (.ok ())).1 = .ok () ∧
      alookup id (disconnect st id (.ok ())).2.connections = none := by
  have herr : disconnect st id (.error e) = (.error e, st) := by
    simp [disconnect, hConn]
  have hok : disconnect st id (.ok ()) =
      (.ok (), { st with connections := aerase id st.connections }) := by
    simp [disconnect, hConn]
  refine ⟨herr, ?_, ?_, ?_⟩
  · rw [herr]
    exact hConn
  · rw [hok]
  · rw [hok]
    exact alookup_aerase_self id st.connections

/-- Witness for C10: on a one-connection registry, a failing driver close
leaves the record in place and surfaces the error; a successful close
removes it. -/
theorem disconnect_atomic_witness :
    disconnect ⟨[("c1", ⟨"postgres", [], 0, 0, 0⟩)], false, [], 300000, 10,
          ⟨3, 2, 1000, 5000⟩⟩ "c1" (.error "socket hang up") =
        (.error "socket hang up",
          ⟨[("c1", ⟨"postgres", [], 0, 0, 0⟩)], false, [], 300000, 10,
            ⟨3, 2, 1000, 5000⟩⟩) ∧
      alookup "c1"
          (disconnect ⟨[("c1", ⟨"postgres", [], 0, 0, 0⟩)], false, [], 300000, 10,
              ⟨3, 2, 1000, 5000⟩⟩ "c1" (.ok ())).2.connections = none :=
  ⟨(disconnect_atomic
      ⟨[("c1", ⟨"postgres", [], 0, 0, 0⟩)], false, [], 300000, 10,
        ⟨3, 2, 1000, 5000⟩⟩ "c1" ⟨"postgres", [], 0, 0, 0⟩ "socket hang up" rfl).1,
    (disconnect_atomic
      ⟨[("c1", ⟨"postgres", [], 0, 0, 0⟩)], false, [], 300000, 10,
        ⟨3, 2, 1000, 5000⟩⟩ "c1" ⟨"postgres", [], 0, 0, 0⟩ "socket hang up" rfl).2.2.2⟩

/-- Witness for C3 (amended): with policy
`{retries := 3, factor := 2, minTimeout := 1000, maxTimeout := 5000}` and an
always-failing operation, the third sleep is
`min(1000 * 2^2, 5000) = 4000`. -/
theorem executeWithRetry_delay_formula_witness :
    (executeWithRetry (fun _ => (Except.error "e" : Except String String))
        ⟨3, 2, 1000, 5000⟩).delays[2]? =
      some (min ((1000 : ℚ) * 2 ^ (2 : ℕ)) 5000) :=
  executeWithRetry_delay_formula (fun _ => (Except.error "e" : Except String String))
    ⟨3, 2, 1000, 5000⟩ (by norm_num) (by norm_num) (by norm_num) 2
    (by norm_num [executeWithRetry, retryLoop, min_def])

/-! ## Claim C8 -/

/-- Whitespace characters for template comparison. -/
def isWS (c : Char) : Bool := c = ' ' || c = '\n' || c = '\t' || c = '\r'

/-- Collapse every maximal run of whitespace into a single space (dropping
leading/trailing runs). -/
def squeezeAux : Bool → List Char → List Char
  | _, [] => []
  | pendingWS, c :: rest =>
    if isWS c then squeezeAux true rest
    else if pendingWS then ' ' :: c :: squeezeAux false rest
    else c :: squeezeAux false rest

/-- Whitespace-normalized form of a string. -/
def collapseWS (s : String) : String := ⟨squeezeAux false s.data⟩

/-- The single-line tableSchema template the spec lists for the
relational-network-b (postgres) kind. -/
def specPgSchemaTemplate : String :=
  "SELECT column_name, data_type, is_nullable FROM information_schema.columns WHERE table_name = $1"

/-- **C8 counterexample**: for a registered postgres connection,
`getTableSchema` issues the source's multi-line template literal (embedded
newlines and 11-space continuation indentation), which is not
character-for-character equal to the spec's single-line template — though
its whitespace-normalized form is. -/
theorem tableSchema_template_counterexample :
    getTableSchema
        ⟨[("p1", ⟨"postgres", [], 0, 0, 0⟩)], false, [], 300000, 10,
          ⟨3, 2, 1000, 5000⟩⟩ "p1" "users" =
        .ok (.sql pgSchemaTemplate ["users"]) ∧
      pgSchemaTemplate ≠ specPgSchemaTemplate ∧
      collapseWS pgSchemaTemplate = specPgSchemaTemplate := by
  refine ⟨rfl, by decide, by decide⟩

/-- **C8 (amended)**: for every registered connection, `getTables` and
`getTableSchema` issue exactly the canonical per-backend-kind template:
the three `getTables` queries and the sqlite/mysql `getTableSchema`
templates match the spec literally; the postgres `getTableSchema` issues
the parameterized `information_schema.columns` query with the table name
as sole parameter, equal to the spec's text only after whitespace
normalization (the source's template literal spans three lines); the
mongodb kind issues the driver metadata call for `getTables` and the
canned `{collection, operation:'find', options:{limit:1}}` request for
`getTableSchema`. -/
theorem introspection_templates (st : ReaderState) (id t : String)
    (rec : ConnRecord) (hConn : alookup id st.connections = some rec) :
    (rec.type = "sqlite" →
        getTables st id =
          .ok (.sql "SELECT name FROM sqlite_master WHERE type='table' AND name NOT LIKE 'sqlite_%'" []) ∧
        getTableSchema st id t = .ok (.sql ("PRAGMA table_info(" ++ t ++ ")") [])) ∧
      (rec.type = "mysql" →
        getTables st id = .ok (.sql "SHOW TABLES" []) ∧
        getTableSchema st id t = .ok (.sql ("DESCRIBE " ++ t) [])) ∧
      (rec.type = "postgres" →
        getTables st id =
          .ok (.sql "SELECT tablename FROM pg_tables WHERE schemaname = 'public'" []) ∧
        getTableSchema st id t = .ok (.sql pgSchemaTemplate [t]) ∧
        collapseWS pgSchemaTemplate = specPgSchemaTemplate ∧
        pgSchemaTemplate ≠ specPgSchemaTemplate) ∧
      (rec.type = "mongodb" →
        getTables st id = .ok .listCollections ∧
        getTableSchema st id t =
          .ok (.mongo { collection := some t, operation := some "find", limit := some 1 })) := by
  refine ⟨?_, ?_, ?_, ?_⟩ <;> intro htype
  · exact ⟨by simp [getTables, hConn, htype], by simp [getTableSchema, hConn, htype]⟩
  · exact ⟨by simp [getTables, hConn, htype], by simp [getTableSchema, hConn, htype]⟩
  · exact ⟨by simp [getTables, hConn, htype], by simp [getTableSchema, hConn, htype],
      by decide, by decide⟩
  · exact ⟨by simp [getTables, hConn, htype], by simp [getTableSchema, hConn, htype]⟩

/-- Witness for C8 (amended): the postgres and sqlite templates on a
concrete two-connection registry. -/
theorem introspection_templates_witness :
    (getTables
        ⟨[("p1", ⟨"postgres", [], 0, 0, 0⟩)], false, [], 300000, 10,
          ⟨3, 2, 1000, 5000⟩⟩ "p1" =
      .ok (.sql "SELECT tablename FROM pg_tables WHERE schemaname = 'public'" [])) ∧
      getTableSchema
          ⟨[("p1", ⟨"postgres", [], 0, 0, 0⟩)], false, [], 300000, 10,
            ⟨3, 2, 1000, 5000⟩⟩ "p1" "users" =
        .ok (.sql pgSchemaTemplate ["users"]) :=
  ⟨((introspection_templates
      ⟨[("p1", ⟨"postgres", [], 0, 0, 0⟩)], false, [], 300000, 10,
        ⟨3, 2, 1000, 5000⟩⟩ "p1" "users" ⟨"postgres", [], 0, 0, 0⟩ rfl).2.2.1 rfl).1,
    ((introspection_templates
      ⟨[("p1", ⟨"postgres", [], 0, 0, 0⟩)], false, [], 300000, 10,
        ⟨3, 2, 1000, 5000⟩⟩ "p1" "users" ⟨"postgres", [], 0, 0, 0⟩ rfl).2.2.1 rfl).2.1⟩

/-! ## Claim C9: helper lemmas -/

/-- Decimal valuation of a digit string (inverse of `natChars`). -/
def parseNatChars (l : List Char) : ℕ :=
  l.foldl (fun acc c => acc * 10 + (c.toNat - 48)) 0

theorem digitChar_toNat (d : ℕ) (h : d < 10) : (digitChar d).toNat = 48 + d := by
  interval_cases d <;> rfl

theorem digitChar_isDigit (d : ℕ) (h : d < 10) : (digitChar d).isDigit = true := by
  interval_cases d <;> rfl

theorem parseNatChars_append (l : List Char) (c : Char) :
    parseNatChars (l ++ [c]) = parseNatChars l * 10 + (c.toNat - 48) := by
  simp [parseNatChars, List.foldl_append]

theorem natCharsAux_parse : ∀ fuel n, n ≤ fuel →
    parseNatChars (natCharsAux fuel n) = n := by
  intro fuel
  induction fuel with
  | zero =>
    intro n hn
    interval_cases n
    rfl
  | succ f ih =>
    intro n hn
    by_cases h0 : n = 0
    · subst h0
      rfl
    · have hdlt : n / 10 < n := Nat.div_lt_self (Nat.pos_of_ne_zero h0) (by omega)
      have hrec : n / 10 ≤ f := by omega
      simp only [natCharsAux, if_neg h0]
      rw [parseNatChars_append, ih (n / 10) hrec,
        digitChar_toNat (n % 10) (Nat.mod_lt n (by omega))]
      omega

theorem parseNatChars_natChars (n : ℕ) : parseNatChars (natChars n) = n := by
  by_cases h : n = 0
  · subst h
    rfl
  · simp only [natChars, if_neg h]
    exact natCharsAux_parse n n le_rfl

theorem natChars_injective {a b : ℕ} (h : natChars a = natChars b) : a = b := by
  have hp := congrArg parseNatChars h
  rwa [parseNatChars_natChars, parseNatChars_natChars] at hp

theorem natCharsAux_digits : ∀ fuel n, ∀ c ∈ natCharsAux fuel n,
    c.isDigit = true := by
  intro fuel
  induction fuel with
  | zero =>
    intro n c hc
    simp [natCharsAux] at hc
  | succ f ih =>
    intro n c hc
    by_cases h0 : n = 0
    · simp [natCharsAux, h0] at hc
    · simp only [natCharsAux, if_neg h0, List.mem_append, List.mem_singleton] at hc
      rcases hc with hc | hc
      · exact ih (n / 10) c hc
      · subst hc
        exact digitChar_isDigit (n % 10) (Nat.mod_lt n (by omega))

theorem natChars_digits (n : ℕ) : ∀ c ∈ natChars n, c.isDigit = true := by
  by_cases h : n = 0
  · subst h
    intro c hc
    simp [natChars] at hc
    subst hc
    rfl
  · simp only [natChars, if_neg h]
    exact natCharsAux_digits n n

theorem natChars_ne_nil (n : ℕ) : natChars n ≠ [] := by
  by_cases h : n = 0
  · subst h
    simp [natChars]
  · simp only [natChars, if_neg h]
    obtain ⟨f, rfl⟩ : ∃ f, n = f + 1 := ⟨n - 1, by omega⟩
    simp [natCharsAux]

theorem isDigit_ne_dash (c : Char) (h : c.isDigit = true) : c ≠ '-' := by
  intro hc
  subst hc
  exact absurd h (by decide)

theorem base36Char_isLowerAlnum : ∀ d : Fin 36, isLowerAlnum (base36Char d) = true := by
  decide

theorem base36Char_injective : Function.Injective base36Char := by
  decide

theorem append_dash_inj (a₁ : List Char) :
    ∀ (a₂ b₁ b₂ : List Char), (∀ c ∈ a₁, c ≠ '-') → (∀ c ∈ a₂, c ≠ '-') →
    a₁ ++ '-' :: b₁ = a₂ ++ '-' :: b₂ → a₁ = a₂ ∧ b₁ = b₂ := by
  induction a₁ with
  | nil =>
    intro a₂ b₁ b₂ _ h₂ h
    cases a₂ with
    | nil => simpa using h
    | cons x xs =>
      rw [List.nil_append, List.cons_append] at h
      injection h with h1 h2
      exact absurd h1.symm (h₂ x (by simp))
  | cons y ys ih =>
    intro a₂ b₁ b₂ h₁ h₂ h
    cases a₂ with
    | nil =>
      rw [List.nil_append, List.cons_append] at h
      injection h with h1 h2
      exact absurd h1 (h₁ y (by simp))
    | cons x xs =>
      rw [List.cons_append, List.cons_append] at h
      injection h with h1 h2
      have hrest := ih xs b₁ b₂ (fun c hc => h₁ c (List.mem_cons_of_mem _ hc))
        (fun c hc => h₂ c (List.mem_cons_of_mem _ hc)) h2
      exact ⟨by rw [h1, hrest.1], hrest.2⟩

theorem stripPrefixChars_append (p rest : List Char) :
    stripPrefixChars p (p ++ rest) = some rest := by
  induction p with
  | nil => rfl
  | cons c cs ih => simp [stripPrefixChars, ih]

theorem takeWhile_digits_append (l r : List Char)
    (hl : ∀ c ∈ l, c.isDigit = true) :
    (l ++ '-' :: r).takeWhile Char.isDigit = l := by
  induction l with
  | nil => simp [List.takeWhile_cons]
  | cons c cs ih =>
    rw [List.cons_append, List.takeWhile_cons, if_pos (hl c (by simp))]
    rw [ih (fun c' hc' => hl c' (List.mem_cons_of_mem _ hc'))]

theorem randomSuffix_ne_nil (d : List (Fin 36)) (hd : d ≠ []) :
    randomSuffix d ≠ [] := by
  intro hcon
  apply hd
  have htake := List.map_eq_nil_iff.mp hcon
  rcases List.take_eq_nil_iff.mp htake with h9 | hnil
  · exact absurd h9 (by decide)
  · exact hnil

theorem randomSuffix_alnum (d : List (Fin 36)) :
    ∀ c ∈ randomSuffix d, isLowerAlnum c = true := by
  intro c hc
  obtain ⟨x, _, rfl⟩ := List.mem_map.mp hc
  exact base36Char_isLowerAlnum x

theorem generateConnectionId_pattern (type : String) (n : ℕ)
    (d : List (Fin 36)) (hd : d ≠ []) :
    matchesIdPattern type (generateConnectionId type n d) = true := by
  show checkIdChars type.data
    (type.data ++ '-' :: (natChars n ++ '-' :: randomSuffix d)) = true
  simp only [checkIdChars, stripPrefixChars_append]
  rw [takeWhile_digits_append (natChars n) (randomSuffix d) (natChars_digits n)]
  rw [List.drop_left]
  simp only [Bool.and_eq_true, decide_eq_true_eq, List.all_eq_true]
  exact ⟨natChars_ne_nil n, randomSuffix_ne_nil d hd, randomSuffix_alnum d⟩

theorem generateConnectionId_inj (type : String)
    (hdash : ∀ c ∈ type.data, c ≠ '-') (n n' : ℕ) (d d' : List (Fin 36))
    (h : generateConnectionId type n d = generateConnectionId type n' d') :
    n = n' ∧ d.take 9 = d'.take 9 := by
  have hdata : type.data ++ '-' :: (natChars n ++ '-' :: randomSuffix d) =
      type.data ++ '-' :: (natChars n' ++ '-' :: randomSuffix d') :=
    congrArg String.data h
  have h1 := append_dash_inj type.data type.data _ _ hdash hdash hdata
  have h2 := append_dash_inj (natChars n) (natChars n') _ _
    (fun c hc => isDigit_ne_dash c (natChars_digits n c hc))
    (fun c hc => isDigit_ne_dash c (natChars_digits n' c hc)) h1.2
  refine ⟨natChars_injective h2.1, ?_⟩
  exact List.map_injective_iff.mpr base36Char_injective h2.2

/-! ## Claim C9 -/

/-- **C9 counterexample**: when `Math.random()` returns `0`,
`toString(36)` yields `"0"` and `substr(2, 9)` yields the empty string, so
the generated id ends in a dash with an *empty* suffix and does not match
the claimed pattern `{backendKind}-{digits}-{alnum}` with a non-empty
alphanumeric suffix. -/
theorem generateConnectionId_counterexample :
    generateConnectionId "sqlite" 1700000000000 [] = "sqlite-1700000000000-" ∧
      matchesIdPattern "sqlite"
        (generateConnectionId "sqlite" 1700000000000 []) = false := by
  refine ⟨rfl, by decide⟩

/-- **C9 (amended)**: for every backend kind (no dash in its name), a
generated connection id with a non-zero random value (non-empty fraction
digits) matches the pattern `{backendKind}-{digits}-{alnum}` with a
non-empty alphanumeric suffix of at most nine base-36 characters (the
suffix is empty exactly when `Math.random()` returned `0`); and the
timestamp and the first nine random digits are recoverable from the id, so
two generated ids of the same kind coincide only when their timestamps and
truncated random digits both coincide — distinctness is guaranteed exactly
under that condition, not unconditionally. -/
theorem generateConnectionId_spec (type : String)
    (hdash : ∀ c ∈ type.data, c ≠ '-') :
    (∀ (n : ℕ) (d : List (Fin 36)), d ≠ [] →
        matchesIdPattern type (generateConnectionId type n d) = true) ∧
      ∀ (n n' : ℕ) (d d' : List (Fin 36)),
        generateConnectionId type n d = generateConnectionId type n' d' →
        n = n' ∧ d.take 9 = d'.take 9 :=
  ⟨fun n d hd => generateConnectionId_pattern type n d hd,
    fun n n' d d' h => generateConnectionId_inj type hdash n n' d d' h⟩

/-- Witness for C9 (amended): a concrete sqlite id with two random digits
matches the pattern, and equal ids force equal timestamps. -/
theorem generateConnectionId_spec_witness :
    matchesIdPattern "sqlite"
        (generateConnectionId "sqlite" 1700000000000
          [(10 : Fin 36), (3 : Fin 36)]) = true ∧
      (1700000000000 : ℕ) = 1700000000000 ∧
        ([(10 : Fin 36), (3 : Fin 36)].take 9 = [(10 : Fin 36), (3 : Fin 36)].take 9) :=
  ⟨(generateConnectionId_spec "sqlite" (by decide)).1 1700000000000
      [(10 : Fin 36), (3 : Fin 36)] (by decide),
    (generateConnectionId_spec "sqlite" (by decide)).2 1700000000000 1700000000000
      [(10 : Fin 36), (3 : Fin 36)] [(10 : Fin 36), (3 : Fin 36)] rfl⟩

end DbReader
